import Mathlib

/-!
Verification development for the orders-invoice service (`src/main.py`).

The HTML documents handled by the service are modelled as a tree of nodes
(`Node`), mirroring the parsed-tree interface of the parsing library used by
the source (descendant traversal in document order, tag/class matching,
text accumulation).  The pure extraction and rendering functions of the
source are translated one-to-one; the network calls (document fetch,
delivery post) and the temporary file are modelled as explicit outcome
parameters and instrumentation fields on the result trace.
-/

/-- A parsed HTML node: either a text fragment or an element with a tag
name, a list of class attribute values, and children in document order. -/
inductive Node where
  | text : String → Node
  | elem : String → List String → List Node → Node

mutual

/-- All descendant nodes of a node, in document (pre-)order, excluding the
node itself — the traversal order used by the parser's find operations. -/
def Node.descendants : Node → List Node
  | .text _ => []
  | .elem _ _ cs => Node.descList cs

def Node.descList : List Node → List Node
  | [] => []
  | c :: cs => c :: (Node.descendants c ++ Node.descList cs)

end

/-- Whether a node is an element with the given tag name. -/
def isTag (tag : String) : Node → Bool
  | .elem t _ _ => t == tag
  | .text _ => false

/-- Whether a node is an element with the given tag carrying the given
class attribute value (the parser's `class_=` matching: any one of the
element's classes equals the requested one). -/
def isTagClass (tag cls : String) : Node → Bool
  | .elem t cs _ => t == tag && cs.contains cls
  | .text _ => false

/-- `find_all(tag, class_=cls)`: all matching descendants in document order. -/
def findAllTagClass (tag cls : String) (n : Node) : List Node :=
  n.descendants.filter (isTagClass tag cls)

/-- `find(tag, class_=cls)`: first matching descendant, if any. -/
def findTagClass (tag cls : String) (n : Node) : Option Node :=
  n.descendants.find? (isTagClass tag cls)

/-- `find_all(tag)`: all descendants with the given tag, in document order. -/
def findAllTag (tag : String) (n : Node) : List Node :=
  n.descendants.filter (isTag tag)

/-- `find(tag)`: first descendant with the given tag, if any. -/
def findTag (tag : String) (n : Node) : Option Node :=
  n.descendants.find? (isTag tag)

mutual

/-- All text fragments (string descendants) of a node, in document order. -/
def Node.strings : Node → List String
  | .text s => [s]
  | .elem _ _ cs => Node.stringsList cs

def Node.stringsList : List Node → List String
  | [] => []
  | c :: cs => Node.strings c ++ Node.stringsList cs

end

/-- Python `str.strip()`: remove leading and trailing whitespace. -/
def pyStrip (s : String) : String :=
  ⟨((s.data.dropWhile Char.isWhitespace).reverse.dropWhile Char.isWhitespace).reverse⟩

/-- The scan of Python `str.replace`: replace each leftmost, non-overlapping
occurrence of `pat` by `rep`, left to right.  The fuel argument (the input
length) only drives structural recursion; it is never exhausted because
every step consumes at least one character. -/
def replaceFuel (pat rep : List Char) : Nat → List Char → List Char
  | _, [] => []
  | 0, s => s
  | fuel + 1, c :: rest =>
    if pat.isPrefixOf (c :: rest) then
      rep ++ replaceFuel pat rep fuel (rest.drop (pat.length - 1))
    else
      c :: replaceFuel pat rep fuel rest

/-- Python `str.replace(pat, rep)` (for a non-empty pattern, the only use
in the source): all non-overlapping occurrences replaced, left to right. -/
def pyReplace (s pat rep : String) : String :=
  ⟨replaceFuel pat.data rep.data s.data.length s.data⟩

/-- `get_text(strip=True)`: each text fragment stripped of leading and
trailing whitespace, fragments that become empty dropped, the rest
concatenated with no separator. -/
def getTextStrip (n : Node) : String :=
  String.join ((n.strings.map pyStrip).filter (fun s => s ≠ ""))

/-- The `.string` of an element: the single text fragment reached by
descending through children as long as there is exactly one, if any. -/
def nodeString : Node → Option String
  | .text s => some s
  | .elem _ _ [c] => nodeString c
  | .elem _ _ _ => none

/-- Whether a node is a `span` element whose `.string` equals `cap`
(the parser's `find("span", string=cap)` match condition). -/
def isCaptionSpan (cap : String) (n : Node) : Bool :=
  match n with
  | .elem t _ _ => t == "span" && (nodeString n == some cap)
  | .text _ => false

mutual

/-- The parent of the first descendant `span` (in document order) whose
`.string` equals `cap` — the `span.parent` of `find("span", string=cap)`. -/
def findCaptionSpanParent (cap : String) (n : Node) : Option Node :=
  match n with
  | .text _ => none
  | .elem _ _ cs => findCaptionSpanParentList cap n cs

def findCaptionSpanParentList (cap : String) (p : Node) : List Node → Option Node
  | [] => none
  | c :: cs =>
    if isCaptionSpan cap c then some p
    else
      match findCaptionSpanParent cap c with
      | some q => some q
      | none => findCaptionSpanParentList cap p cs

end

/-- `extract_order_data.get_text_by_caption` (src/main.py lines 22-26):
find a `span` whose string equals the caption; if found, return the
parent's `get_text(strip=True)` with every occurrence of the caption
replaced by the empty string; otherwise return the empty string. -/
def get_text_by_caption (order_soup : Node) (caption : String) : String :=
  match findCaptionSpanParent caption order_soup with
  | some p => pyReplace (getTextStrip p) caption ""
  | none => ""

/-- `extract_orders` (src/main.py line 18): all `table` elements with
class `wrapper`, in document order. -/
def extract_orders (soup : Node) : List Node :=
  findAllTagClass "table" "wrapper" soup

/-- One extracted product line (src/main.py lines 51-56). -/
structure ProductLine where
  name : String
  attrs : String
  code : String
  quantity : String
deriving DecidableEq, Repr

/-- One extracted order record (src/main.py lines 60-68). -/
structure OrderRecord where
  order_number : String
  order_date : String
  full_name : String
  phone : String
  zipcode : String
  address : String
  products : List ProductLine
deriving DecidableEq, Repr

/-- The per-row body of the products loop (src/main.py lines 39-58):
`none` when the row is skipped (`continue`), `some` product otherwise. -/
def rowProduct (row : Node) : Option ProductLine :=
  match findAllTag "td" row with
  | _ :: t1 :: t2 :: t3 :: _ =>
    match findTag "h2" t1 with
    | none => none
    | some h =>
      some
        { name := getTextStrip h
          attrs :=
            match findTagClass "span" "product-attrs" t1 with
            | some s => getTextStrip s
            | none => ""
          code :=
            match findTag "span" t2 with
            | some s => getTextStrip s
            | none => ""
          quantity :=
            match findTag "span" t3 with
            | some s => getTextStrip s
            | none => "" }
  | _ => none

/-- `find_all("tr")` over the products table (src/main.py line 38). -/
def trRows (t : Node) : List Node :=
  findAllTag "tr" t

/-- The products part of `extract_order_data` (src/main.py lines 35-58):
empty when no `table.products` exists in the block, otherwise the
non-skipped rows of the first such table, in row order. -/
def extractProducts (order_soup : Node) : List ProductLine :=
  match findTagClass "table" "products" order_soup with
  | none => []
  | some t => (trRows t).filterMap rowProduct

/-- `extract_order_data` (src/main.py lines 21-68). -/
def extract_order_data (order_soup : Node) : OrderRecord :=
  { order_number := get_text_by_caption order_soup "شماره سفارش: "
    order_date := get_text_by_caption order_soup "تاریخ ثبت سفارش: "
    full_name := get_text_by_caption order_soup "نام و نام‌خانوادگی: "
    phone := get_text_by_caption order_soup "شماره تماس:"
    zipcode := get_text_by_caption order_soup "کد پستی گیرنده:"
    address := get_text_by_caption order_soup "آدرس گیرنده:"
    products := extractProducts order_soup }

/-- The per-product row of the report (src/main.py lines 75-82): the body
of the f-string appended to `product_rows` for each product. -/
def product_row_html (p : ProductLine) : String :=
  "\n            <tr>\n                <td>" ++ p.name ++
  "</td>\n                <td>" ++ p.attrs ++
  "</td>\n                <td>" ++ p.code ++
  "</td>\n                <td>" ++ p.quantity ++
  "</td>\n            </tr>\n            "

/-- The `product_rows` accumulation loop (src/main.py lines 73-82). -/
def product_rows_html (ps : List ProductLine) : String :=
  ps.foldl (fun acc p => acc ++ product_row_html p) ""

/-- The `products_table` f-string (src/main.py lines 83-97). -/
def products_table_html (ps : List ProductLine) : String :=
  "\n        <table class=\"products\">\n            <thead>\n                <tr>\n                    <th>نام محصول</th>\n                    <th>ویژگی‌ها</th>\n                    <th>کد</th>\n                    <th>تعداد</th>\n                </tr>\n            </thead>\n            <tbody>\n                " ++
  product_rows_html ps ++
  "\n            </tbody>\n        </table>\n        "

/-- The `order_html` f-string (src/main.py lines 98-109): one report
section for the order at 1-based position `i`. -/
def order_html (i : Nat) (order : OrderRecord) : String :=
  "\n        <section style=\"border:1px solid #ccc; margin-bottom:30px; padding:10px;\">\n            <h2>سفارش شماره " ++
  Nat.repr i ++
  "</h2>\n            " ++
  products_table_html order.products ++
  "\n            <div><strong>شماره سفارش:</strong> " ++ order.order_number ++
  "</div>\n            <div><strong>تاریخ ثبت سفارش:</strong> " ++ order.order_date ++
  "</div>\n            <div><strong>نام و نام‌خانوادگی:</strong> " ++ order.full_name ++
  "</div>\n            <div><strong>شماره تماس:</strong> " ++ order.phone ++
  "</div>\n            <div><strong>کد پستی گیرنده:</strong> " ++ order.zipcode ++
  "</div>\n            <div><strong>آدرس گیرنده:</strong> " ++ order.address ++
  "</div>\n        </section>\n        "

/-- The `all_orders_html` accumulation loop (src/main.py lines 71-110):
`enumerate(orders_data, start=1)` with `+=` of each section. -/
def all_orders_html (orders_data : List OrderRecord) : String :=
  (orders_data.enumFrom 1).foldl (fun acc p => acc ++ order_html p.1 p.2) ""

/-- The fixed document part before the orders (src/main.py lines 112-141):
doctype, head, style block (the doubled braces of the f-string render as
single literal braces, written here as escapes). -/
def page_head : String :=
  "\n    <!DOCTYPE html>\n    <html lang=\"fa\">\n    <head>\n        <meta charset=\"UTF-8\" />\n        <title>فاکتورهای استخراج شده</title>\n        <style>\n            body \x7b\n                direction: rtl;\n                font-family: Tahoma, Arial, sans-serif;\n                margin: 20px;\n                font-size: 14px;\n            \x7d\n            table.products \x7b\n                border-collapse: collapse;\n                width: 100%;\n                margin-top: 10px;\n            \x7d\n            table.products th, table.products td \x7b\n                border: 1px solid #ccc;\n                padding: 8px;\n                text-align: right;\n            \x7d\n            table.products th \x7b\n                background-color: #eee;\n            \x7d\n        </style>\n    </head>\n    <body>\n        "

/-- The fixed document part after the orders (src/main.py lines 141-144). -/
def page_tail : String :=
  "\n    </body>\n    </html>\n    "

/-- `generate_html_for_orders` (src/main.py lines 70-144). -/
def generate_html_for_orders (orders_data : List OrderRecord) : String :=
  page_head ++ all_orders_html orders_data ++ page_tail

/-- Environment configuration read at module load (src/main.py lines 11-13);
an unset variable is the empty string. -/
structure Config where
  telegram_bot_token : String
  telegram_chat_id : String
  api_key : String
deriving DecidableEq, Repr

/-- `ProcessInput` request model (src/main.py lines 161-166). -/
structure ProcessInput where
  url : Option String
  html : Option String
  send_to_telegram : Bool
  return_html : Bool
  filename : String
deriving DecidableEq, Repr

/-- Outcome of the one `requests.get(url)` call the request may perform:
a response with a status code and body text, or a raised transport
exception. -/
inductive FetchOutcome where
  | response : Nat → String → FetchOutcome
  | exn : String → FetchOutcome
deriving DecidableEq, Repr

/-- Outcome of the one `requests.post` call the delivery adapter may
perform: a response with its transport-level `ok` flag and (parsed or raw)
body, or a raised transport exception. -/
inductive PostOutcome where
  | response : Bool → String → PostOutcome
  | exn : String → PostOutcome
deriving DecidableEq, Repr

/-- The dictionary returned by `send_to_telegram` (src/main.py lines
149, 158): either the unconfigured-credentials error payload, or the
response-mirroring payload. -/
inductive DeliveryResult where
  | configError : String → DeliveryResult
  | sent : Bool → String → DeliveryResult
deriving DecidableEq, Repr

/-- The `ok` field of the delivery result dictionary. -/
def DeliveryResult.isOk : DeliveryResult → Bool
  | .configError _ => false
  | .sent ok _ => ok

/-- A request-terminating error: an `HTTPException` raised with a status
code and detail, or an uncaught Python exception propagating out. -/
inductive HttpError where
  | httpException : Nat → String → HttpError
  | unhandled : String → HttpError
deriving DecidableEq, Repr

/-- The success-response dictionary of `/process` (src/main.py lines
215-223); `html` is present only when `return_html` was requested. -/
structure Summary where
  ok : Bool
  orders : Nat
  sent_to_telegram : Bool
  telegram_result : Option DeliveryResult
  filename : String
  html : Option String
deriving DecidableEq, Repr

/-- The observable outcome of one `/process` request: the response or
error, plus instrumentation of the externally visible effects: number of
document-fetch calls, number of delivery-post calls, the order records
built, whether the temporary file was created, and whether the cleanup
statement (`os.remove`, its own errors swallowed) was reached. -/
structure ProcessTrace where
  result : Except HttpError Summary
  fetchCalls : Nat
  postCalls : Nat
  extracted : Option (List OrderRecord)
  tempCreated : Bool
  tempRemoved : Bool
deriving Repr

/-- `send_to_telegram` (src/main.py lines 147-158), with the outcome of
the `requests.post` call supplied as `net`.  Returns the result dictionary
paired with the number of post calls performed, or the propagating
exception message.  The unconfigured branch returns before any call. -/
def send_to_telegram (cfg : Config) (file_bytes filename : String)
    (net : PostOutcome) : Except String (DeliveryResult × Nat) :=
  if cfg.telegram_bot_token = "" ∨ cfg.telegram_chat_id = "" then
    Except.ok (DeliveryResult.configError "TELEGRAM_BOT_TOKEN or TELEGRAM_CHAT_ID not set", 0)
  else
    match net with
    | .exn m => Except.error m
    | .response ok body => Except.ok (DeliveryResult.sent ok body, 1)

/-- Python truthiness of `payload.url` (src/main.py line 181). -/
def urlTruthy (payload : ProcessInput) : Bool :=
  match payload.url with
  | some u => u ≠ ""
  | none => false

/-- The input-resolution block of `process_orders` (src/main.py lines
179-189): start from the inline html, overwrite it with the fetched text
whenever a url is given, then reject a missing/empty document.  Returns
the resolved html (or the terminating error) with the fetch-call count. -/
def resolveHtml (payload : ProcessInput) (fetch : FetchOutcome) :
    Except HttpError (Option String) × Nat :=
  let step :=
    if urlTruthy payload then
      (match fetch with
       | .exn m => (Except.error (HttpError.unhandled m), 1)
       | .response st txt =>
         if st ≠ 200 then
           (Except.error (HttpError.httpException 400 ("Fetch failed: " ++ Nat.repr st)), 1)
         else
           (Except.ok (some txt), 1))
    else (Except.ok payload.html, 0)
  match step with
  | (Except.error e, c) => (Except.error e, c)
  | (Except.ok h, c) =>
    match h with
    | none => (Except.error (HttpError.httpException 400 "Provide \x27url\x27 or \x27html\x27"), c)
    | some s =>
      if s = "" then
        (Except.error (HttpError.httpException 400 "Provide \x27url\x27 or \x27html\x27"), c)
      else (Except.ok (some s), c)

/-- The response dictionary built at src/main.py lines 215-223. -/
def mkSummary (payload : ProcessInput) (orders_data : List OrderRecord)
    (tg : Option DeliveryResult) (final_html : String) : Summary :=
  { ok := true
    orders := orders_data.length
    sent_to_telegram := payload.send_to_telegram
    telegram_result := tg
    filename := payload.filename
    html := if payload.return_html then some final_html else none }

/-- `process_orders` (src/main.py lines 173-224).  The parser
(`BeautifulSoup(html, "html.parser")`) is supplied as the function
`parse`; the outcomes of the optional fetch and the optional delivery
post are supplied as `fetch` and `net`. -/
def process_orders (cfg : Config) (payload : ProcessInput)
    (x_api_key : Option String) (parse : String → Node)
    (fetch : FetchOutcome) (net : PostOutcome) : ProcessTrace :=
  if cfg.api_key ≠ "" ∧ x_api_key ≠ some cfg.api_key then
    { result := Except.error (HttpError.httpException 401 "Invalid API key")
      fetchCalls := 0, postCalls := 0, extracted := none
      tempCreated := false, tempRemoved := false }
  else
    match resolveHtml payload fetch with
    | (Except.error e, fc) =>
      { result := Except.error e, fetchCalls := fc, postCalls := 0
        extracted := none, tempCreated := false, tempRemoved := false }
    | (Except.ok none, fc) =>
      { result := Except.error (HttpError.httpException 400 "Provide \x27url\x27 or \x27html\x27")
        fetchCalls := fc, postCalls := 0, extracted := none
        tempCreated := false, tempRemoved := false }
    | (Except.ok (some h), fc) =>
      let soup := parse h
      let orders_soups := extract_orders soup
      if orders_soups.isEmpty then
        { result := Except.error (HttpError.httpException 404 "No orders found")
          fetchCalls := fc, postCalls := 0, extracted := none
          tempCreated := false, tempRemoved := false }
      else
        let orders_data := orders_soups.map extract_order_data
        let final_html := generate_html_for_orders orders_data
        if payload.send_to_telegram then
          match send_to_telegram cfg final_html payload.filename net with
          | Except.error m =>
            { result := Except.error (HttpError.unhandled m)
              fetchCalls := fc, postCalls := 1, extracted := some orders_data
              tempCreated := true, tempRemoved := false }
          | Except.ok (r, pc) =>
            { result := Except.ok (mkSummary payload orders_data (some r) final_html)
              fetchCalls := fc, postCalls := pc, extracted := some orders_data
              tempCreated := true, tempRemoved := true }
        else
          { result := Except.ok (mkSummary payload orders_data none final_html)
            fetchCalls := fc, postCalls := 0, extracted := some orders_data
            tempCreated := true, tempRemoved := true }

/-! ### String helper lemmas -/

theorem str_eq_of_data {a b : String} (h : a.data = b.data) : a = b :=
  congrArg String.mk h

theorem str_data_append (a b : String) : (a ++ b).data = a.data ++ b.data := rfl

theorem str_nil_append (s : String) : "" ++ s = s := rfl

theorem str_join_cons (x : String) (xs : List String) :
    String.join (x :: xs) = x ++ String.join xs := by
  apply str_eq_of_data
  rw [String.join_eq, String.join_eq]
  show _ = (x ++ String.mk _).data
  simp

theorem str_foldl_append {α : Type} (f : α → String) :
    ∀ (l : List α) (s : String),
      l.foldl (fun acc x => acc ++ f x) s = s ++ String.join (l.map f)
  | [], s => (String.append_empty s).symm
  | a :: t, s => by
    show t.foldl _ (s ++ f a) = _
    rw [str_foldl_append f t (s ++ f a), List.map_cons, str_join_cons,
      String.append_assoc]

/-- Verbatim containment: `v` occurs in `s` as a contiguous substring,
exactly as given (no escaping or transformation). -/
def StrContains (s v : String) : Prop := ∃ a b, s = (a ++ v) ++ b

theorem strContains_self (v : String) : StrContains v v :=
  ⟨"", "", (String.append_empty v).symm⟩

theorem strContains_left (t : String) {s v : String} (h : StrContains s v) :
    StrContains (t ++ s) v := by
  obtain ⟨a, b, rfl⟩ := h
  exact ⟨t ++ a, b, by simp [String.append_assoc]⟩

theorem strContains_right (t : String) {s v : String} (h : StrContains s v) :
    StrContains (s ++ t) v := by
  obtain ⟨a, b, rfl⟩ := h
  exact ⟨a, b ++ t, by simp [String.append_assoc]⟩

theorem strContains_trans {d s v : String} (hds : StrContains d s)
    (hsv : StrContains s v) : StrContains d v := by
  obtain ⟨a, b, rfl⟩ := hds
  obtain ⟨c, e, rfl⟩ := hsv
  exact ⟨a ++ c, e ++ b, by simp [String.append_assoc]⟩

theorem strContains_foldl {α : Type} (f : α → String) {x : α} :
    ∀ {l : List α} (_ : x ∈ l) (s : String),
      StrContains (l.foldl (fun acc y => acc ++ f y) s) (f x) := by
  intro l hx
  induction l with
  | nil => cases hx
  | cons a t ih =>
    intro s
    rcases List.mem_cons.mp hx with h | h
    · subst h
      show StrContains (t.foldl _ (s ++ f x)) (f x)
      rw [str_foldl_append]
      exact strContains_right _ (strContains_left _ (strContains_self _))
    · exact ih h (s ++ f a)

theorem strContains_isInfix {s v : String} (h : StrContains s v) :
    v.data <:+: s.data := by
  obtain ⟨a, b, rfl⟩ := h
  exact ⟨a.data, b.data, by simp [str_data_append]⟩

/-- Boolean form of verbatim containment (decidable, used for concrete
evaluations). -/
def strContainsB (s v : String) : Bool := decide (v.data <:+: s.data)

theorem strContainsB_of_strContains {s v : String} (h : StrContains s v) :
    strContainsB s v = true :=
  decide_eq_true (strContains_isInfix h)

theorem exists_mem_enumFrom {α : Type} {x : α} :
    ∀ {l : List α} (_ : x ∈ l) (n : Nat), ∃ i, (i, x) ∈ l.enumFrom n := by
  intro l hx
  induction l with
  | nil => cases hx
  | cons a t ih =>
    intro n
    rcases List.mem_cons.mp hx with h | h
    · exact ⟨n, by simp [List.enumFrom, h]⟩
    · rcases ih h (n + 1) with ⟨i, hi⟩
      exact ⟨i, by simp [List.enumFrom]; right; exact hi⟩

/-! ### Report renderer: decomposition into numbered sections -/

/-- The fixed markup of a report section up to (and excluding) its visible
section number (from the spec: a heading with the sequence number). -/
def sectionNumberHead : String :=
  "\n        <section style=\"border:1px solid #ccc; margin-bottom:30px; padding:10px;\">\n            <h2>سفارش شماره "

/-- The markup of a report section after its visible section number: the
closing of the heading, the product table, and the six labeled field
lines (from the spec's description of a section's contents).  It depends
on the record only — never on the section number. -/
def sectionAfterNumber (order : OrderRecord) : String :=
  "</h2>\n            " ++
  products_table_html order.products ++
  "\n            <div><strong>شماره سفارش:</strong> " ++ order.order_number ++
  "</div>\n            <div><strong>تاریخ ثبت سفارش:</strong> " ++ order.order_date ++
  "</div>\n            <div><strong>نام و نام‌خانوادگی:</strong> " ++ order.full_name ++
  "</div>\n            <div><strong>شماره تماس:</strong> " ++ order.phone ++
  "</div>\n            <div><strong>کد پستی گیرنده:</strong> " ++ order.zipcode ++
  "</div>\n            <div><strong>آدرس گیرنده:</strong> " ++ order.address ++
  "</div>\n        </section>\n        "

theorem order_html_decomp (i : Nat) (o : OrderRecord) :
    order_html i o = (sectionNumberHead ++ Nat.repr i) ++ sectionAfterNumber o := by
  simp [order_html, sectionNumberHead, sectionAfterNumber, String.append_assoc]

/-- C7: the renderer produces exactly one section per record, in input
order; the i-th section carries the visible number i (the 1-based input
position, the numbers being 1..N), and its body after the number renders
the i-th input record; the visible number comes from the position alone,
independent of any `order_number` field value. -/
theorem c7_sections_numbered_by_position (orders_data : List OrderRecord) :
    generate_html_for_orders orders_data =
      page_head ++ String.join ((orders_data.enumFrom 1).map
        (fun p => (sectionNumberHead ++ Nat.repr p.1) ++ sectionAfterNumber p.2)) ++ page_tail
    ∧ (orders_data.enumFrom 1).map Prod.fst = List.range' 1 orders_data.length := by
  constructor
  · unfold generate_html_for_orders all_orders_html
    rw [str_foldl_append (fun p : Nat × OrderRecord => order_html p.1 p.2),
      str_nil_append]
    simp only [order_html_decomp]
  · exact List.enumFrom_map_fst 1 orders_data

/-! ### Interpolated field values in the rendered report -/

/-- The six scalar field values of a record, as interpolated by the
renderer (from the spec: the six labeled lines of a section). -/
def scalarFieldValues (o : OrderRecord) : List String :=
  [o.order_number, o.order_date, o.full_name, o.phone, o.zipcode, o.address]

/-- The four field values of a product line, as interpolated by the
renderer (from the spec: the four cells of a product row). -/
def productFieldValues (p : ProductLine) : List String :=
  [p.name, p.attrs, p.code, p.quantity]

theorem order_html_contains_scalar (i : Nat) (o : OrderRecord) (v : String)
    (hv : v ∈ scalarFieldValues o) : StrContains (order_html i o) v := by
  unfold order_html
  simp only [scalarFieldValues, List.mem_cons, List.not_mem_nil, or_false] at hv
  rcases hv with rfl | rfl | rfl | rfl | rfl | rfl <;>
    (repeat first
      | exact strContains_left _ (strContains_self _)
      | apply strContains_right)

theorem product_row_contains (p : ProductLine) (v : String)
    (hv : v ∈ productFieldValues p) : StrContains (product_row_html p) v := by
  unfold product_row_html
  simp only [productFieldValues, List.mem_cons, List.not_mem_nil, or_false] at hv
  rcases hv with rfl | rfl | rfl | rfl <;>
    (repeat first
      | exact strContains_left _ (strContains_self _)
      | apply strContains_right)

theorem order_html_contains_table (i : Nat) (o : OrderRecord) :
    StrContains (order_html i o) (products_table_html o.products) := by
  unfold order_html
  repeat first
    | exact strContains_left _ (strContains_self _)
    | apply strContains_right

theorem products_table_contains_rows (ps : List ProductLine) :
    StrContains (products_table_html ps) (product_rows_html ps) := by
  unfold products_table_html
  repeat first
    | exact strContains_left _ (strContains_self _)
    | apply strContains_right

theorem product_rows_contains_row {p : ProductLine} {ps : List ProductLine}
    (hp : p ∈ ps) : StrContains (product_rows_html ps) (product_row_html p) :=
  strContains_foldl product_row_html hp ""

theorem generate_contains_section {orders : List OrderRecord} {o : OrderRecord}
    (ho : o ∈ orders) :
    ∃ i, StrContains (generate_html_for_orders orders) (order_html i o) := by
  obtain ⟨i, hi⟩ := exists_mem_enumFrom ho 1
  refine ⟨i, ?_⟩
  unfold generate_html_for_orders all_orders_html
  exact strContains_right _ (strContains_left _
    (strContains_foldl (fun p : Nat × OrderRecord => order_html p.1 p.2) hi ""))

/-- C2 (amended): every scalar field value and every product field value
of every rendered record is interpolated into the rendered document
verbatim — as-is, with no HTML escaping applied; markup-special
characters in a field therefore appear as live markup, not as escaped
text. -/
theorem c2_fields_interpolated_verbatim (orders : List OrderRecord)
    (o : OrderRecord) (ho : o ∈ orders) :
    (∀ v ∈ scalarFieldValues o,
      strContainsB (generate_html_for_orders orders) v = true)
    ∧ ∀ p ∈ o.products, ∀ v ∈ productFieldValues p,
      strContainsB (generate_html_for_orders orders) v = true := by
  obtain ⟨i, hdoc⟩ := generate_contains_section ho
  constructor
  · intro v hv
    exact strContainsB_of_strContains
      (strContains_trans hdoc (order_html_contains_scalar i o v hv))
  · intro p hp v hv
    exact strContainsB_of_strContains (strContains_trans hdoc
      (strContains_trans (order_html_contains_table i o)
        (strContains_trans (products_table_contains_rows o.products)
          (strContains_trans (product_rows_contains_row hp)
            (product_row_contains p v hv)))))

/-! ### Concrete sample inputs -/

/-- A record whose address field carries a markup-special (tag-like)
substring, as produced from unsanitized third-party source content. -/
def recInjected : OrderRecord :=
  { order_number := "100", order_date := "", full_name := "", phone := ""
    zipcode := "", address := "<script>alert(1)</script>", products := [] }

set_option maxRecDepth 100000 in
/-- C2 counterexample: rendering a record whose address field contains a
tag-like substring yields a document containing that substring verbatim
(as live markup), while the document contains no ampersand character at
all — so no HTML-escaped form (`&lt;` etc.) of the field is present
anywhere. -/
theorem c2_injected_markup_is_live :
    strContainsB (generate_html_for_orders [recInjected]) "<script>alert(1)</script>" = true
    ∧ (generate_html_for_orders [recInjected]).data.all (fun c => c != '&') = true := by
  constructor
  · obtain ⟨i, hdoc⟩ :=
      @generate_contains_section [recInjected] recInjected (by simp)
    exact strContainsB_of_strContains (strContains_trans hdoc
      (order_html_contains_scalar i recInjected _
        (by simp [scalarFieldValues, recInjected])))
  · rfl

theorem c2_fields_interpolated_verbatim_w :
    strContainsB (generate_html_for_orders [recInjected]) "<script>alert(1)</script>" = true :=
  (c2_fields_interpolated_verbatim [recInjected] recInjected (by simp)).1
    "<script>alert(1)</script>" (by simp [scalarFieldValues, recInjected])

/-- An order block whose label span text is exactly the order-number
caption (which ends in a space), followed by the value `12345`. -/
def c5Block : Node :=
  .elem "table" ["wrapper"]
    [.elem "tr" []
      [.elem "td" []
        [.elem "span" [] [.text "شماره سفارش: "], .text "12345"]]]

/-- C5: evaluating the field extractor at a block whose label node's text
exactly equals the caption `"شماره سفارش: "` (trailing space included).
The claim (and spec §4.2) says the result is the enclosing element's full
text with the caption removed and trimmed, i.e. `"12345"`; the code
instead strips each text fragment before the removal, so the caption with
its trailing space no longer occurs and is not removed: the result keeps
the label, `"شماره سفارش:12345"`. -/
theorem c5_trailing_space_caption_not_removed :
    get_text_by_caption c5Block "شماره سفارش: " = "شماره سفارش:12345"
    ∧ get_text_by_caption c5Block "شماره سفارش: " ≠ "12345" := by
  constructor
  · rfl
  · decide

/-! ### Product table extraction -/

/-- Whether the second cell of a row's cell list contains a product-name
heading element (from the spec's row-validity description). -/
def secondCellHasHeading : List Node → Bool
  | _ :: c :: _ => (findTag "h2" c).isSome
  | _ => false

/-- Spec-side row validity: at least 4 cell positions, and the second
cell contains a product-name heading element. -/
def rowValid (r : Node) : Bool :=
  decide (4 ≤ (findAllTag "td" r).length) && secondCellHasHeading (findAllTag "td" r)

/-- Placeholder product used only to state the map over valid rows. -/
def junkProduct : ProductLine :=
  { name := "", attrs := "", code := "", quantity := "" }

theorem filterMap_eq_filter_map {α β : Type} (f : α → Option β) (d : β) :
    ∀ l : List α,
      l.filterMap f = (l.filter (fun x => (f x).isSome)).map (fun x => (f x).getD d)
  | [] => rfl
  | a :: t => by
    cases h : f a <;>
      simp [List.filterMap_cons, List.filter_cons, h,
        filterMap_eq_filter_map f d t]

theorem rowValid_eq_isSome (r : Node) : rowValid r = (rowProduct r).isSome := by
  unfold rowValid rowProduct secondCellHasHeading
  rcases hl : findAllTag "td" r with _ | ⟨a, _ | ⟨b, _ | ⟨c, _ | ⟨d, t⟩⟩⟩⟩ <;>
    simp [List.length_cons]
  cases findTag "h2" b <;> simp

/-- C6: over the line-item table located in a block, the product
extractor keeps exactly the valid rows — those with at least 4 cells and
a product-name heading in the second cell — one product line per valid
row, in row order; every row with fewer than 4 cells or without the
heading is skipped (validity coincides with the row producing a line). -/
theorem c6_valid_rows_extracted (block t : Node)
    (ht : findTagClass "table" "products" block = some t) :
    extractProducts block =
      ((trRows t).filter rowValid).map (fun r => (rowProduct r).getD junkProduct)
    ∧ ∀ r : Node, rowValid r = (rowProduct r).isSome := by
  refine ⟨?_, rowValid_eq_isSome⟩
  unfold extractProducts
  rw [ht]
  show (trRows t).filterMap rowProduct = _
  rw [filterMap_eq_filter_map rowProduct junkProduct]
  congr 1
  exact List.filter_congr (fun x _ => (rowValid_eq_isSome x).symm)

/-- A valid product row: four cells, heading and attrs in the second,
labeled code and quantity spans in the third and fourth. -/
def sampleRow (nm cd qt : String) : Node :=
  .elem "tr" []
    [.elem "td" [] [],
     .elem "td" [] [.elem "h2" [] [.text nm],
       .elem "span" ["product-attrs"] [.text "قرمز"]],
     .elem "td" [] [.elem "span" [] [.text cd]],
     .elem "td" [] [.elem "span" [] [.text qt]]]

/-- An invalid row: fewer than 4 cells. -/
def shortRow : Node := .elem "tr" [] [.elem "th" [] [.text "x"]]

/-- An invalid row: 4 cells but no heading element in the second. -/
def headlessRow : Node :=
  .elem "tr" []
    [.elem "td" [] [], .elem "td" [] [.text "no heading"],
     .elem "td" [] [], .elem "td" [] []]

/-- A products table with two valid rows interspersed among two invalid
ones. -/
def sampleProductsTable : Node :=
  .elem "table" ["products"]
    [shortRow, sampleRow "A" "K1" "2", headlessRow, sampleRow "B" "K2" "5"]

/-- An order block containing the sample products table. -/
def sampleProductsBlock : Node :=
  .elem "table" ["wrapper"] [sampleProductsTable]

theorem c6_valid_rows_extracted_w :
    extractProducts sampleProductsBlock =
      [{ name := "A", attrs := "قرمز", code := "K1", quantity := "2" },
       { name := "B", attrs := "قرمز", code := "K2", quantity := "5" }] := by
  rw [(c6_valid_rows_extracted sampleProductsBlock sampleProductsTable rfl).1]
  rfl

/-- C10: when a block contains no table tagged with the products class,
extraction still succeeds: the record's product sequence is empty and
each of the six scalar fields is exactly the caption-extraction result
for that block (unaffected by the table's absence). -/
theorem c10_no_products_table (block : Node)
    (h : findTagClass "table" "products" block = none) :
    (extract_order_data block).products = []
    ∧ (extract_order_data block).order_number = get_text_by_caption block "شماره سفارش: "
    ∧ (extract_order_data block).order_date = get_text_by_caption block "تاریخ ثبت سفارش: "
    ∧ (extract_order_data block).full_name = get_text_by_caption block "نام و نام‌خانوادگی: "
    ∧ (extract_order_data block).phone = get_text_by_caption block "شماره تماس:"
    ∧ (extract_order_data block).zipcode = get_text_by_caption block "کد پستی گیرنده:"
    ∧ (extract_order_data block).address = get_text_by_caption block "آدرس گیرنده:" := by
  refine ⟨?_, rfl, rfl, rfl, rfl, rfl, rfl⟩
  show extractProducts block = []
  unfold extractProducts
  rw [h]

theorem c10_no_products_table_w :
    (extract_order_data c5Block).products = [] :=
  (c10_no_products_table c5Block rfl).1

/-! ### Concrete request-level inputs -/

/-- Configuration with delivery credentials set and no API key. -/
def cfgT : Config := ⟨"token", "chat", ""⟩

/-- Configuration with no delivery credentials and no API key. -/
def cfgNoCreds : Config := ⟨"", "", ""⟩

/-- A one-order document: one wrapper table with a labeled phone field. -/
def sampleWrapper : Node :=
  .elem "table" ["wrapper"]
    [.elem "tr" []
      [.elem "td" [] [.elem "span" [] [.text "شماره تماس:"], .text " 0912"]]]

def sampleDoc : Node := .elem "html" [] [.elem "body" [] [sampleWrapper]]

/-- A two-order document. -/
def twoWrapperDoc : Node := .elem "html" [] [sampleWrapper, sampleWrapper]

/-- A document with no order block at all. -/
def noOrdersDoc : Node := .elem "html" [] [.elem "p" [] [.text "nothing"]]

/-- A parser oracle mapping every input to the one-order document. -/
def parseOne : String → Node := fun _ => sampleDoc

/-- A parser oracle mapping the fetched body to the two-order document and
anything else (e.g. the inline html) to the one-order document. -/
def parseCount : String → Node :=
  fun s => if s = "FETCHED" then twoWrapperDoc else sampleDoc

/-- A parser oracle mapping every input to the no-order document. -/
def parseNone : String → Node := fun _ => noOrdersDoc

/-- A request with inline html and delivery requested. -/
def payloadSend : ProcessInput := ⟨none, some "<doc>", true, false, "all_orders.html"⟩

/-- A request carrying both a (non-empty) url and inline html. -/
def payloadBoth : ProcessInput :=
  ⟨some "http://example.com/orders", some "<p>inline</p>", false, false, "all_orders.html"⟩

/-- A request carrying only inline html, delivery off. -/
def payloadInline : ProcessInput := ⟨none, some "<p>inline</p>", false, false, "all_orders.html"⟩

/-- The order count of a successful response, if the request succeeded. -/
def resultOrders (t : ProcessTrace) : Option Nat :=
  match t.result with
  | Except.ok s => some s.orders
  | Except.error _ => none

/-- C4: once the request passes authorization and input resolution, a
document whose parse yields zero order blocks makes the request fail with
the 404 not-found error (never an empty success), and a document with at
least one block yields exactly one order record per block, in document
order. -/
theorem c4_zero_blocks_404_else_count (cfg : Config) (payload : ProcessInput)
    (key : Option String) (parse : String → Node) (fetch : FetchOutcome)
    (net : PostOutcome) (h : String) (fc : Nat)
    (hauth : ¬(cfg.api_key ≠ "" ∧ key ≠ some cfg.api_key))
    (hres : resolveHtml payload fetch = (Except.ok (some h), fc)) :
    (extract_orders (parse h) = [] →
      (process_orders cfg payload key parse fetch net).result =
        Except.error (HttpError.httpException 404 "No orders found"))
    ∧ (extract_orders (parse h) ≠ [] →
      (process_orders cfg payload key parse fetch net).extracted =
        some ((extract_orders (parse h)).map extract_order_data)
      ∧ ((extract_orders (parse h)).map extract_order_data).length =
        (extract_orders (parse h)).length) := by
  constructor
  · intro he
    simp only [process_orders, if_neg hauth, hres, he]
    simp
  · intro hne
    have hne2 : (extract_orders (parse h)).isEmpty = false := by
      simpa [List.isEmpty_iff] using hne
    simp only [process_orders, if_neg hauth, hres, hne2]
    refine ⟨?_, by simp⟩
    cases hs : payload.send_to_telegram
    · simp [hs]
    · cases hst : send_to_telegram cfg
        (generate_html_for_orders ((extract_orders (parse h)).map extract_order_data))
        payload.filename net with
      | error m => simp [hs, hst]
      | ok rp => cases rp with | mk r pc => simp [hs, hst]

theorem c4_zero_blocks_404_else_count_w :
    (process_orders cfgT payloadInline none parseNone
      (FetchOutcome.response 200 "") (PostOutcome.response true "")).result =
      Except.error (HttpError.httpException 404 "No orders found") :=
  (c4_zero_blocks_404_else_count cfgT payloadInline none parseNone
    (FetchOutcome.response 200 "") (PostOutcome.response true "")
    "<p>inline</p>" 0 (by simp [cfgT]) rfl).1 rfl

theorem process_fetchCalls (cfg : Config) (payload : ProcessInput)
    (key : Option String) (parse : String → Node) (fetch : FetchOutcome)
    (net : PostOutcome) (res : Except HttpError (Option String)) (fc : Nat)
    (hauth : ¬(cfg.api_key ≠ "" ∧ key ≠ some cfg.api_key))
    (hres : resolveHtml payload fetch = (res, fc)) :
    (process_orders cfg payload key parse fetch net).fetchCalls = fc := by
  cases res with
  | error e => simp [process_orders, if_neg hauth, hres]
  | ok ho =>
    cases ho with
    | none => simp [process_orders, if_neg hauth, hres]
    | some h =>
      cases hE : (extract_orders (parse h)).isEmpty with
      | true => simp [process_orders, if_neg hauth, hres, hE]
      | false =>
        cases hS : payload.send_to_telegram with
        | false => simp [process_orders, if_neg hauth, hres, hE, hS]
        | true =>
          cases hD : send_to_telegram cfg
              (generate_html_for_orders ((extract_orders (parse h)).map extract_order_data))
              payload.filename net with
          | error m => simp [process_orders, if_neg hauth, hres, hE, hS, hD]
          | ok rp =>
            obtain ⟨r, pc⟩ := rp
            simp [process_orders, if_neg hauth, hres, hE, hS, hD]

theorem process_result_congr (cfg : Config) (p1 p2 : ProcessInput)
    (key : Option String) (parse : String → Node) (fetch : FetchOutcome)
    (net : PostOutcome) (res : Except HttpError (Option String)) (fc1 fc2 : Nat)
    (h1 : resolveHtml p1 fetch = (res, fc1))
    (h2 : resolveHtml p2 fetch = (res, fc2))
    (hs : p2.send_to_telegram = p1.send_to_telegram)
    (hr : p2.return_html = p1.return_html)
    (hf : p2.filename = p1.filename) :
    (process_orders cfg p1 key parse fetch net).result =
      (process_orders cfg p2 key parse fetch net).result := by
  by_cases hA : (cfg.api_key ≠ "" ∧ key ≠ some cfg.api_key)
  · simp [process_orders, if_pos hA]
  · cases res with
    | error e => simp [process_orders, if_neg hA, h1, h2]
    | ok ho =>
      cases ho with
      | none => simp [process_orders, if_neg hA, h1, h2]
      | some h =>
        simp only [process_orders, if_neg hA, h1, h2, mkSummary, hs, hr, hf]
        cases hE : (extract_orders (parse h)).isEmpty with
        | true => simp [hE]
        | false =>
          cases hS : p1.send_to_telegram with
          | false => simp [hE, hS]
          | true =>
            cases hD : send_to_telegram cfg
                (generate_html_for_orders ((extract_orders (parse h)).map extract_order_data))
                p1.filename net with
            | error m => simp [hE, hS, hD]
            | ok rp =>
              obtain ⟨r, pc⟩ := rp
              simp [hE, hS, hD]

/-- C1 (amended): when a non-empty url is provided, the request always
performs the fetch (exactly one fetch call), and — whatever inline html
was also supplied — the outcome of the request is the same as if only the
fetched text had been provided as inline html: the url's content, not the
inline html, is the document source.  Inline html is used only when no
url is given. -/
theorem c1_url_fetch_overrides_inline (cfg : Config) (payload : ProcessInput)
    (key : Option String) (parse : String → Node) (net : PostOutcome)
    (u txt : String)
    (hauth : ¬(cfg.api_key ≠ "" ∧ key ≠ some cfg.api_key))
    (hurl : payload.url = some u) (hu : u ≠ "") :
    (process_orders cfg payload key parse (FetchOutcome.response 200 txt) net).fetchCalls = 1
    ∧ (process_orders cfg payload key parse (FetchOutcome.response 200 txt) net).result =
      (process_orders cfg
        ⟨none, some txt, payload.send_to_telegram, payload.return_html, payload.filename⟩
        key parse (FetchOutcome.response 200 txt) net).result := by
  have hu2 : urlTruthy payload = true := by
    unfold urlTruthy
    rw [hurl]
    simp [hu]
  by_cases htxt : txt = ""
  · subst htxt
    have h1 : resolveHtml payload (FetchOutcome.response 200 "") =
        (Except.error (HttpError.httpException 400 "Provide \x27url\x27 or \x27html\x27"), 1) := by
      simp [resolveHtml, hu2]
    have h2 : resolveHtml
        ⟨none, some "", payload.send_to_telegram, payload.return_html, payload.filename⟩
        (FetchOutcome.response 200 "") =
        (Except.error (HttpError.httpException 400 "Provide \x27url\x27 or \x27html\x27"), 0) := by
      simp [resolveHtml, urlTruthy]
    exact ⟨process_fetchCalls cfg payload key parse _ net _ 1 hauth h1,
      process_result_congr cfg payload _ key parse _ net _ 1 0 h1 h2 rfl rfl rfl⟩
  · have h1 : resolveHtml payload (FetchOutcome.response 200 txt) =
        (Except.ok (some txt), 1) := by
      simp [resolveHtml, hu2, htxt]
    have h2 : resolveHtml
        ⟨none, some txt, payload.send_to_telegram, payload.return_html, payload.filename⟩
        (FetchOutcome.response 200 txt) =
        (Except.ok (some txt), 0) := by
      simp [resolveHtml, urlTruthy, htxt]
    exact ⟨process_fetchCalls cfg payload key parse _ net _ 1 hauth h1,
      process_result_congr cfg payload _ key parse _ net _ 1 0 h1 h2 rfl rfl rfl⟩

/-- C1 counterexample: with both a non-empty url and inline html provided,
the request performs one fetch of the url (the claim says none occurs)
and the processed document is the fetched one — the response reports the
two orders of the fetched body, not the one order of the inline html,
which processing the inline html alone would report. -/
theorem c1_both_given_fetches_url :
    (process_orders cfgT payloadBoth none parseCount
      (FetchOutcome.response 200 "FETCHED") (PostOutcome.response true "")).fetchCalls = 1
    ∧ resultOrders (process_orders cfgT payloadBoth none parseCount
        (FetchOutcome.response 200 "FETCHED") (PostOutcome.response true "")) = some 2
    ∧ resultOrders (process_orders cfgT payloadInline none parseCount
        (FetchOutcome.response 200 "FETCHED") (PostOutcome.response true "")) = some 1 :=
  ⟨rfl, rfl, rfl⟩

theorem c1_url_fetch_overrides_inline_w :
    (process_orders cfgT payloadBoth none parseCount
      (FetchOutcome.response 200 "FETCHED") (PostOutcome.response true "")).fetchCalls = 1
    ∧ (process_orders cfgT payloadBoth none parseCount
        (FetchOutcome.response 200 "FETCHED") (PostOutcome.response true "")).result =
      (process_orders cfgT
        ⟨none, some "FETCHED", payloadBoth.send_to_telegram, payloadBoth.return_html,
          payloadBoth.filename⟩
        none parseCount (FetchOutcome.response 200 "FETCHED")
        (PostOutcome.response true "")).result :=
  c1_url_fetch_overrides_inline cfgT payloadBoth none parseCount
    (PostOutcome.response true "") "http://example.com/orders" "FETCHED"
    (by simp [cfgT]) rfl (by decide)

/-- C3 (amended): whenever the delivery call returns a response — any
transport-level `ok` value, success or failure — the request does not
abort: it returns the success summary (ok=true) with the delivery result
captured as data.  Only a raised transport exception from the delivery
call escapes and fails the request (src/main.py has no try/except around
the post). -/
theorem c3_delivery_response_never_aborts (cfg : Config) (payload : ProcessInput)
    (key : Option String) (parse : String → Node) (fetch : FetchOutcome)
    (net : PostOutcome) (h : String) (fc : Nat) (tok : Bool) (body : String)
    (hauth : ¬(cfg.api_key ≠ "" ∧ key ≠ some cfg.api_key))
    (hres : resolveHtml payload fetch = (Except.ok (some h), fc))
    (hne : extract_orders (parse h) ≠ [])
    (hsend : payload.send_to_telegram = true)
    (htok : cfg.telegram_bot_token ≠ "") (hchat : cfg.telegram_chat_id ≠ "")
    (hnet : net = PostOutcome.response tok body) :
    (process_orders cfg payload key parse fetch net).result =
      Except.ok (mkSummary payload ((extract_orders (parse h)).map extract_order_data)
        (some (DeliveryResult.sent tok body))
        (generate_html_for_orders ((extract_orders (parse h)).map extract_order_data)))
    ∧ (mkSummary payload ((extract_orders (parse h)).map extract_order_data)
        (some (DeliveryResult.sent tok body))
        (generate_html_for_orders ((extract_orders (parse h)).map extract_order_data))).ok
      = true := by
  have hne2 : (extract_orders (parse h)).isEmpty = false := by
    simpa [List.isEmpty_iff] using hne
  have hD : send_to_telegram cfg
      (generate_html_for_orders ((extract_orders (parse h)).map extract_order_data))
      payload.filename net = Except.ok (DeliveryResult.sent tok body, 1) := by
    unfold send_to_telegram
    rw [if_neg (not_or.mpr ⟨htok, hchat⟩), hnet]
  refine ⟨?_, rfl⟩
  simp [process_orders, if_neg hauth, hres, hne2, hsend, hD]

/-- C3 counterexample: a transport-level exception raised by the delivery
call propagates out of the request — the process operation fails with the
unhandled exception instead of returning a success summary. -/
theorem c3_transport_exception_aborts :
    (process_orders cfgT payloadSend none parseOne (FetchOutcome.response 200 "")
      (PostOutcome.exn "connection error")).result =
      Except.error (HttpError.unhandled "connection error") := rfl

theorem c3_delivery_response_never_aborts_w :
    (process_orders cfgT payloadSend none parseOne (FetchOutcome.response 200 "")
      (PostOutcome.response false "bad request")).result =
      Except.ok (mkSummary payloadSend
        ((extract_orders (parseOne "<doc>")).map extract_order_data)
        (some (DeliveryResult.sent false "bad request"))
        (generate_html_for_orders
          ((extract_orders (parseOne "<doc>")).map extract_order_data))) :=
  (c3_delivery_response_never_aborts cfgT payloadSend none parseOne
    (FetchOutcome.response 200 "") (PostOutcome.response false "bad request")
    "<doc>" 0 false "bad request" (by simp [cfgT]) rfl
    (by
      have e : extract_orders (parseOne "<doc>") = [sampleWrapper] := rfl
      intro hcon
      exact List.cons_ne_nil _ _ (e.symm.trans hcon))
    rfl (by decide) (by decide) rfl).1

/-- C8: with delivery credentials unconfigured (empty bot token or empty
destination id), the delivery adapter returns ok=false with the
explanatory error payload without performing any post call (whatever the
transport outcome would have been), and a request that reaches the
delivery step still returns ok=true with that result captured as data
and zero post calls. -/
theorem c8_unconfigured_delivery_soft_fails (cfg : Config) (payload : ProcessInput)
    (key : Option String) (parse : String → Node) (fetch : FetchOutcome)
    (net : PostOutcome) (h : String) (fc : Nat)
    (hcreds : cfg.telegram_bot_token = "" ∨ cfg.telegram_chat_id = "")
    (hauth : ¬(cfg.api_key ≠ "" ∧ key ≠ some cfg.api_key))
    (hres : resolveHtml payload fetch = (Except.ok (some h), fc))
    (hne : extract_orders (parse h) ≠ [])
    (hsend : payload.send_to_telegram = true) :
    (∀ fb fn net2, send_to_telegram cfg fb fn net2 =
      Except.ok (DeliveryResult.configError
        "TELEGRAM_BOT_TOKEN or TELEGRAM_CHAT_ID not set", 0))
    ∧ DeliveryResult.isOk (DeliveryResult.configError
        "TELEGRAM_BOT_TOKEN or TELEGRAM_CHAT_ID not set") = false
    ∧ (process_orders cfg payload key parse fetch net).postCalls = 0
    ∧ (process_orders cfg payload key parse fetch net).result =
      Except.ok (mkSummary payload ((extract_orders (parse h)).map extract_order_data)
        (some (DeliveryResult.configError
          "TELEGRAM_BOT_TOKEN or TELEGRAM_CHAT_ID not set"))
        (generate_html_for_orders ((extract_orders (parse h)).map extract_order_data)))
    ∧ (mkSummary payload ((extract_orders (parse h)).map extract_order_data)
        (some (DeliveryResult.configError
          "TELEGRAM_BOT_TOKEN or TELEGRAM_CHAT_ID not set"))
        (generate_html_for_orders ((extract_orders (parse h)).map extract_order_data))).ok
      = true := by
  have hD : ∀ fb fn net2, send_to_telegram cfg fb fn net2 =
      Except.ok (DeliveryResult.configError
        "TELEGRAM_BOT_TOKEN or TELEGRAM_CHAT_ID not set", 0) := by
    intro fb fn net2
    unfold send_to_telegram
    rw [if_pos hcreds]
  have hne2 : (extract_orders (parse h)).isEmpty = false := by
    simpa [List.isEmpty_iff] using hne
  refine ⟨hD, rfl, ?_, ?_, rfl⟩ <;>
    simp [process_orders, if_neg hauth, hres, hne2, hsend, hD]

theorem c8_unconfigured_delivery_soft_fails_w :
    (process_orders cfgNoCreds payloadSend none parseOne (FetchOutcome.response 200 "")
      (PostOutcome.exn "would have failed")).postCalls = 0
    ∧ (process_orders cfgNoCreds payloadSend none parseOne (FetchOutcome.response 200 "")
        (PostOutcome.exn "would have failed")).result =
      Except.ok (mkSummary payloadSend
        ((extract_orders (parseOne "<doc>")).map extract_order_data)
        (some (DeliveryResult.configError
          "TELEGRAM_BOT_TOKEN or TELEGRAM_CHAT_ID not set"))
        (generate_html_for_orders
          ((extract_orders (parseOne "<doc>")).map extract_order_data))) := by
  have h := c8_unconfigured_delivery_soft_fails cfgNoCreds payloadSend none parseOne
    (FetchOutcome.response 200 "") (PostOutcome.exn "would have failed") "<doc>" 0
    (Or.inl rfl) (by simp [cfgNoCreds]) rfl
    (by
      have e : extract_orders (parseOne "<doc>") = [sampleWrapper] := rfl
      intro hcon
      exact List.cons_ne_nil _ _ (e.symm.trans hcon))
    rfl
  exact ⟨h.2.2.1, h.2.2.2.1⟩

/-- C9 (amended): the temporary report file is removed on every exit path
on which the delivery call returns to the handler — delivery not
requested, delivery soft-failed on unconfigured credentials, or the post
call returning a response (any status); extraction failures never create
the file.  On the one path where the delivery call raises a transport
exception, the removal statement is never reached and the file outlives
the request. -/
theorem c9_cleanup_when_delivery_returns (cfg : Config) (payload : ProcessInput)
    (key : Option String) (parse : String → Node) (fetch : FetchOutcome)
    (net : PostOutcome)
    (hret : payload.send_to_telegram = false
      ∨ (∃ tok body, net = PostOutcome.response tok body)
      ∨ cfg.telegram_bot_token = "" ∨ cfg.telegram_chat_id = "") :
    (process_orders cfg payload key parse fetch net).tempCreated = true →
    (process_orders cfg payload key parse fetch net).tempRemoved = true := by
  by_cases hA : (cfg.api_key ≠ "" ∧ key ≠ some cfg.api_key)
  · simp [process_orders, if_pos hA]
  · rcases hR : resolveHtml payload fetch with ⟨res, fc⟩
    cases res with
    | error e => simp [process_orders, if_neg hA, hR]
    | ok ho =>
      cases ho with
      | none => simp [process_orders, if_neg hA, hR]
      | some h =>
        cases hE : (extract_orders (parse h)).isEmpty with
        | true => simp [process_orders, if_neg hA, hR, hE]
        | false =>
          cases hS : payload.send_to_telegram with
          | false => simp [process_orders, if_neg hA, hR, hE, hS]
          | true =>
            cases hD : send_to_telegram cfg
                (generate_html_for_orders ((extract_orders (parse h)).map extract_order_data))
                payload.filename net with
            | error m =>
              exfalso
              rcases hret with hf | ⟨tok, body, hnet⟩ | hcred | hcred
              · rw [hf] at hS
                cases hS
              · subst hnet
                unfold send_to_telegram at hD
                split at hD
                · cases hD
                · cases hD
              · unfold send_to_telegram at hD
                rw [if_pos (Or.inl hcred)] at hD
                cases hD
              · unfold send_to_telegram at hD
                rw [if_pos (Or.inr hcred)] at hD
                cases hD
            | ok rp =>
              obtain ⟨r, pc⟩ := rp
              simp [process_orders, if_neg hA, hR, hE, hS, hD]

/-- C9 counterexample: on a request whose delivery call raises a
transport exception, the temporary file is created but never removed —
it outlives the request. -/
theorem c9_temp_file_leaks_on_delivery_exception :
    (process_orders cfgT payloadSend none parseOne (FetchOutcome.response 200 "")
      (PostOutcome.exn "timeout")).tempCreated = true
    ∧ (process_orders cfgT payloadSend none parseOne (FetchOutcome.response 200 "")
        (PostOutcome.exn "timeout")).tempRemoved = false :=
  ⟨rfl, rfl⟩

theorem c9_cleanup_when_delivery_returns_w :
    (process_orders cfgNoCreds payloadSend none parseOne (FetchOutcome.response 200 "")
      (PostOutcome.exn "never reached")).tempRemoved = true :=
  c9_cleanup_when_delivery_returns cfgNoCreds payloadSend none parseOne
    (FetchOutcome.response 200 "") (PostOutcome.exn "never reached")
    (Or.inr (Or.inr (Or.inl rfl))) rfl
